import Mathlib

/-!
Shallow embedding of the `hlpr` chat REPL (src/hlpr.py, src/tool.py).

Python strings are Lean `String`; Python dict records become structures;
raised exceptions become `Except`/explicit crash outcomes; `sys.exit(n)`
becomes an explicit outcome constructor.  The remote service is modelled
as the list of responses it will return, consumed one per request; local
system inspection (clock, `uname`, `uptime` subprocesses) is modelled by
a `SystemEnv` record of the values the environment would yield.
-/

namespace Hlpr

/-- Python `str.strip()` with no argument: remove leading and trailing
whitespace.  Defined over the character list so that it is structurally
recursive (and hence evaluates inside the kernel). -/
def pyStrip (s : String) : String :=
  ⟨((s.data.dropWhile Char.isWhitespace).reverse.dropWhile
      Char.isWhitespace).reverse⟩

/-- Python `str.lstrip()` with no argument: remove leading whitespace. -/
def pyStripLeft (s : String) : String :=
  ⟨s.data.dropWhile Char.isWhitespace⟩

/-- Python `str.lower()`. -/
def pyLower (s : String) : String :=
  ⟨s.data.map Char.toLower⟩

/-- Python `str.startswith(pre)`. -/
def pyStartsWith (s pre : String) : Bool :=
  pre.data.isPrefixOf s.data

/-- Remove the first `n` characters: `s[n:]` in Python. -/
def pyDrop (s : String) (n : Nat) : String :=
  ⟨s.data.drop n⟩

/-- A schema record sent to the remote service in the request's tool list
(the dicts stored in `Tool.definition` / appended by `enable_web_search`).
Only the fields the program reads or writes are modelled; the nested
`parameters` JSON schema is never inspected by the program, so it is kept
as an opaque marker string. -/
structure ToolSchema where
  type : String
  name : Option String := none
  description : Option String := none
  strict : Option Bool := none
  search_context_size : Option String := none
deriving DecidableEq, Repr

/-- The dict appended by `enable_web_search` (src/hlpr.py lines 154-157). -/
def webSearchSchema : ToolSchema :=
  { type := "web_search_preview", search_context_size := some "low" }

/-- src/tool.py `Tool`: binds a zero-argument callable to its schema.
The callable may raise (e.g. `subprocess.run(..., check=True)` raising
`CalledProcessError`); a raised exception is an `Except.error` carrying
the exception's rendering.  `functionName` models `function.__name__`. -/
structure Tool where
  function : Unit → Except String String
  functionName : String
  definition : ToolSchema

/-- src/tool.py `Tool.call`: `return self.function()` — the callable's
outcome, exceptional or not, is returned unchanged (nothing is caught). -/
def Tool.call (t : Tool) : Except String String :=
  t.function ()

/-- src/tool.py `Tool.function_name`: returns `self.function.__name__`
(the DEBUG print is an output side effect with no bearing on the value). -/
def Tool.function_name (t : Tool) : String :=
  t.functionName

/-- The values the local system would yield to the three tool callables:
the rendered UTC clock reading, and the outcomes of the `uname -a` and
`uptime` subprocess invocations (`Except.error` models the
`CalledProcessError` raised under `check=True`). -/
structure SystemEnv where
  datetime_utc : String
  uname_output : Except String String
  uptime_output : Except String String

/-- src/hlpr.py `get_current_datetime_utc`: renders the clock; never raises. -/
def get_current_datetime_utc (env : SystemEnv) : Except String String :=
  .ok env.datetime_utc

/-- src/hlpr.py `get_uname`: runs `uname -a` with `check=True`. -/
def get_uname (env : SystemEnv) : Except String String :=
  env.uname_output

/-- src/hlpr.py `get_uptime`: runs `uptime` with `check=True`. -/
def get_uptime (env : SystemEnv) : Except String String :=
  env.uptime_output

/-- src/hlpr.py `TOOLS` (lines 43-80): the registry, in source order. -/
def TOOLS (env : SystemEnv) : List Tool :=
  [ { function := fun _ => get_current_datetime_utc env,
      functionName := "get_current_datetime_utc",
      definition :=
        { type := "function", name := some "get_current_datetime_utc",
          description := some "Get the current date and time in UTC",
          strict := some true } },
    { function := fun _ => get_uptime env,
      functionName := "get_uptime",
      definition :=
        { type := "function", name := some "get_uptime",
          description := some "Get the system uptime",
          strict := some true } },
    { function := fun _ => get_uname env,
      functionName := "get_uname",
      definition :=
        { type := "function", name := some "get_uname",
          description := some "Get the system uname output",
          strict := some true } } ]

/-- src/hlpr.py line 210: `next((tool for tool in TOOLS if
tool.function_name() == function_name), None)`. -/
def lookupTool (registry : List Tool) (name : String) : Option Tool :=
  registry.find? (fun t => t.function_name == name)

/-- An entry of the conversation list `messages`:
a role/content dict, an appended `function_call` response item
(the ToolCallRequest), or a `function_call_output` dict (the
ToolCallResult). -/
inductive Entry where
  | message (role : String) (content : String)
  | functionCallItem (name : String) (call_id : String)
  | functionCallOutput (call_id : String) (output : String)
deriving DecidableEq, Repr

/-- The first element of a remote response's `output` list, as far as the
program inspects it: its `type` tag, plus `name`/`call_id` when it is a
`function_call` item. -/
inductive REvent where
  | message
  | webSearchCall
  | functionCall (name : String) (call_id : String)
  | other (tag : String)
deriving DecidableEq, Repr

/-- A remote service response, as far as the program reads it:
`response.output[0]` and the aggregate `response.output_text`.
(Usage counters are not modelled; no claim depends on them.) -/
structure ApiResponse where
  output0 : REvent
  output_text : String
deriving DecidableEq, Repr

/-- The `create_args` dict built in `repl_run`: the model identifier and
the tool schema list.  Its `input` key aliases the conversation list,
which the embedding passes explicitly. -/
structure CreateArgs where
  model : String
  tools : List ToolSchema
deriving DecidableEq, Repr

/-- One request issued to the remote service: the `create_args` contents
at the moment of the call (`model`, the aliased conversation, `tools`). -/
structure Request where
  model : String
  input : List Entry
  tools : List ToolSchema
deriving DecidableEq, Repr

/-- How a call to `responses_create` ends.
`done`: normal return of the final text (conversation after the appends);
`fatalEvent`: the unknown-event branch printed a diagnostic and called
`sys.exit(1)`; `crashed`: an uncaught Python exception unwound out of the
function (rendered as the string carried); `noResponse`: artifact of the
model when the supplied response list is exhausted (the real client would
still be blocked waiting on the wire). -/
inductive TurnOutcome where
  | done (finalText : String) (conversation : List Entry)
  | fatalEvent (conversation : List Entry)
  | crashed (exn : String) (conversation : List Entry)
  | noResponse (conversation : List Entry)
deriving DecidableEq, Repr

/-- The conversation list as it stands when the outcome is reached. -/
def TurnOutcome.conversation : TurnOutcome → List Entry
  | .done _ m => m
  | .fatalEvent m => m
  | .crashed _ m => m
  | .noResponse m => m

/-- src/hlpr.py `responses_create` (lines 195-227), also returning the
log of requests issued.  Each loop iteration sends one request (model,
current conversation, tool list) and consumes one response:
`message`/`web_search_call` break the loop and the assistant text is
appended and returned; `function_call` looks the name up in `TOOLS` —
a failed lookup leaves `tool = None` and `tool.call()` raises
`AttributeError`, and a callable that raises propagates likewise
(nothing catches either) — on success the `function_call` item and a
`function_call_output` dict with the same `call_id` are appended and the
loop repeats; any other type prints a diagnostic and exits with status 1. -/
def responses_create (registry : List Tool) (ca : CreateArgs)
    (rs : List ApiResponse) (messages : List Entry) :
    TurnOutcome × List Request :=
  let req : Request := ⟨ca.model, messages, ca.tools⟩
  match rs with
  | [] => (.noResponse messages, [req])
  | r :: rest =>
    match r.output0 with
    | .message =>
        (.done r.output_text (messages ++ [.message "assistant" r.output_text]), [req])
    | .webSearchCall =>
        (.done r.output_text (messages ++ [.message "assistant" r.output_text]), [req])
    | .other _tag =>
        (.fatalEvent messages, [req])
    | .functionCall name call_id =>
      match lookupTool registry name with
      | none =>
          (.crashed "AttributeError: 'NoneType' object has no attribute 'call'" messages, [req])
      | some tool =>
        match tool.call with
        | .error e => (.crashed e messages, [req])
        | .ok result =>
          let next :=
            responses_create registry ca rest
              (messages ++ [.functionCallItem name call_id,
                            .functionCallOutput call_id result])
          (next.1, req :: next.2)

/-- src/hlpr.py `ALLOWED_MODELS` (lines 17-23). -/
def ALLOWED_MODELS : List String :=
  ["gpt-4o-mini", "gpt-4o", "gpt-4.1-nano", "gpt-4.1-mini", "gpt-4.1"]

/-- The mutable fields of the argparse namespace that the REPL reads and
writes (`args.model`, `args.web`, `args.stats`). -/
structure Args where
  model : String
  web : Bool
  stats : Bool
deriving DecidableEq, Repr

/-- src/hlpr.py `enable_web_search` (lines 149-157): append the web
search dict unless a tool of type `web_search_preview` is already
present. -/
def enable_web_search (tools : List ToolSchema) : List ToolSchema :=
  if tools.any (fun tool => tool.type == "web_search_preview") then tools
  else tools ++ [webSearchSchema]

/-- src/hlpr.py `disable_web_search` (lines 160-165): drop every tool of
type `web_search_preview`. -/
def disable_web_search (tools : List ToolSchema) : List ToolSchema :=
  tools.filter (fun tool => tool.type != "web_search_preview")

/-- Result of `handle_set_command`: the updated `args` and `create_args`,
and the error line printed, if any. -/
structure SetResult where
  args : Args
  create_args : CreateArgs
  error : Option String
deriving DecidableEq, Repr

/-- src/hlpr.py `handle_set_command` (lines 168-192).  Python's
`setting.split("=", 1)[1]` on a string that starts with `"model="`
(resp. `"web="`, `"stats="`) is everything after that prefix, hence
`pyDrop` by the prefix's length. -/
def handle_set_command (setting : String) (args : Args) (ca : CreateArgs) :
    SetResult :=
  if pyStartsWith setting "model=" then
    let model := pyStrip (pyDrop setting 6)
    if model ∉ ALLOWED_MODELS then
      { args, create_args := ca,
        error := some ("Error: Model '" ++ model ++ "' not in allowed list.") }
    else
      { args := { args with model }, create_args := { ca with model },
        error := none }
  else if pyStartsWith setting "web=" then
    let value := pyLower (pyStrip (pyDrop setting 4))
    let web := value ∈ ["1", "true", "on", "yes"]
    if web then
      { args := { args with web := true },
        create_args := { ca with tools := enable_web_search ca.tools },
        error := none }
    else
      { args := { args with web := false },
        create_args := { ca with tools := disable_web_search ca.tools },
        error := none }
  else if pyStartsWith setting "stats=" then
    let value := pyLower (pyStrip (pyDrop setting 6))
    { args := { args with stats := value ∈ ["1", "true", "on", "yes"] },
      create_args := ca, error := none }
  else
    { args, create_args := ca,
      error := some ("error: unknown :set parameter '" ++ setting ++ "'") }

/-- src/hlpr.py `handle_edit_command` (lines 124-134): the editor is run
on a fresh scratch file; its contents at close (`editorResult`) are read
back and stripped. -/
def handle_edit_command (editorResult : String) : String :=
  pyStrip editorResult

/-- src/hlpr.py `read_file` (lines 83-89): an unreadable path prints an
error and calls `sys.exit(1)`.  The filesystem is modelled by the
`Option String` of the file's contents. -/
def read_file (contents : Option String) : Except Nat String :=
  match contents with
  | some c => .ok c
  | none => .error 1

/-- The state threaded through one REPL iteration: the conversation list
`messages`, the argparse namespace, and `create_args`. -/
structure ReplState where
  messages : List Entry
  args : Args
  create_args : CreateArgs
deriving DecidableEq, Repr

/-- One line delivered to `input(...)`, or the `EOFError` /
`KeyboardInterrupt` it raises. -/
inductive InputEvent where
  | line (s : String)
  | eof
deriving DecidableEq, Repr

/-- How one iteration of the `repl_run` loop ends.
`next`: the loop continues with the given state (also after a completed
turn); `breakLoop`: `exit`/`quit` broke the loop, after which `repl_run`
and `main` return and the interpreter exits with status 0;
`exitedInterrupt`: the `except (EOFError, KeyboardInterrupt)` handler
printed and called `sys.exit(0)`; `fatalEvent`: the unknown-event branch
called `sys.exit(1)`; `crashed`: an uncaught exception terminated the
interpreter, which reports exit status 1; `blocked`: model artifact for
an exhausted response list (the real process would still be waiting). -/
inductive StepOutcome where
  | next (st : ReplState)
  | breakLoop (st : ReplState)
  | exitedInterrupt (st : ReplState)
  | fatalEvent (st : ReplState)
  | crashed (exn : String) (st : ReplState)
  | blocked (st : ReplState)
deriving DecidableEq, Repr

/-- The REPL state as it stands when the outcome is reached. -/
def StepOutcome.state : StepOutcome → ReplState
  | .next st => st
  | .breakLoop st => st
  | .exitedInterrupt st => st
  | .fatalEvent st => st
  | .crashed _ st => st
  | .blocked st => st

/-- The process exit status that the outcome leads to: `none` while the
process keeps running, `some 0` for the normal terminations (loop break
then return from `main`, or the interrupt handler's `sys.exit(0)`),
`some 1` for `sys.exit(1)` and for an uncaught exception (CPython
terminates with status 1 on an unhandled exception). -/
def StepOutcome.processExitCode : StepOutcome → Option Nat
  | .next _ => none
  | .breakLoop _ => some 0
  | .exitedInterrupt _ => some 0
  | .fatalEvent _ => some 1
  | .crashed _ _ => some 1
  | .blocked _ => none

/-- src/hlpr.py `repl_run` lines 269-271 (the non-meta branch of the loop
body): append the user Message and run `responses_create` (whose
`create_args["input"]` aliases the conversation).  The display of the
returned text and the optional stats print are output-only and not
modelled. -/
def runOrdinaryTurn (env : SystemEnv) (rs : List ApiResponse)
    (st : ReplState) (user_input : String) : StepOutcome × List Request :=
  let messages := st.messages ++ [Entry.message "user" user_input]
  let turn := responses_create (TOOLS env) st.create_args rs messages
  match turn.1 with
  | .done _ m => (.next { st with messages := m }, turn.2)
  | .fatalEvent m => (.fatalEvent { st with messages := m }, turn.2)
  | .crashed e m => (.crashed e { st with messages := m }, turn.2)
  | .noResponse m => (.blocked { st with messages := m }, turn.2)

/-- src/hlpr.py `repl_run` loop body (lines 247-280) for one iteration,
with the request log of any remote calls made.  `input(...).strip()` is
`String.trim`; `EOFError`/`KeyboardInterrupt` hit the handler at lines
282-284.  After `:edit` replaces `user_input`, control falls through to
the `:show ` / `:set ` checks exactly as in the source; a `:set` command
passes `parts[1].lstrip()` — the text after the first blank run — to
`handle_set_command`.  `handle_show_command` only prints, so the `:show `
branch changes no state. -/
def repl_step (env : SystemEnv) (editContent : String)
    (rs : List ApiResponse) (st : ReplState) (inp : InputEvent) :
    StepOutcome × List Request :=
  match inp with
  | .eof => (.exitedInterrupt st, [])
  | .line raw =>
    let u0 := pyStrip raw
    if u0 = "" then (.next st, [])
    else if pyLower u0 ∈ ["exit", "quit"] then (.breakLoop st, [])
    else
      let u1 := if u0 = ":edit" then handle_edit_command editContent else u0
      if u1 = "" then (.next st, [])
      else if pyStartsWith u1 ":show " then (.next st, [])
      else if pyStartsWith u1 ":set " then
        let r := handle_set_command (pyStripLeft (pyDrop u1 5)) st.args st.create_args
        (.next { st with args := r.args, create_args := r.create_args }, [])
      else runOrdinaryTurn env rs st u1

/-! ### Statement-side helpers: the expected transcript of a tool-call turn -/

/-- Whether the registry resolves `name` to a tool whose invocation
returns normally (the good path of the response loop). -/
def toolOk (registry : List Tool) (name : String) : Bool :=
  match lookupTool registry name with
  | some t =>
    match t.call with
    | .ok _ => true
    | .error _ => false
  | none => false

/-- The string the resolved tool's invocation returns (meaningful when
`toolOk` holds). -/
def toolOutput (registry : List Tool) (name : String) : String :=
  match lookupTool registry name with
  | some t =>
    match t.call with
    | .ok s => s
    | .error e => e
  | none => ""

/-- The entries the response loop is expected to append for a list of
`function_call` events, one ToolCallRequest then one ToolCallResult with
the same `call_id` per event, in order. -/
def callEvents (registry : List Tool) : List (String × String) → List Entry
  | [] => []
  | (name, cid) :: ps =>
    Entry.functionCallItem name cid ::
      Entry.functionCallOutput cid (toolOutput registry name) ::
        callEvents registry ps

/-- A remote response sequence of 0 or more `function_call` events
followed by one terminal `message` event carrying `terminalText`. -/
def callResponses (calls : List (String × String)) (terminalText : String) :
    List ApiResponse :=
  calls.map (fun p => ⟨.functionCall p.1 p.2, ""⟩) ++ [⟨.message, terminalText⟩]

/-- The requests such a turn is expected to issue: one per response
consumed, each carrying the conversation with all the pairs appended for
the events already handled. -/
def turnRequests (registry : List Tool) (ca : CreateArgs)
    (msgs : List Entry) : List (String × String) → List Request
  | [] => [⟨ca.model, msgs, ca.tools⟩]
  | (name, cid) :: ps =>
    ⟨ca.model, msgs, ca.tools⟩ ::
      turnRequests registry ca
        (msgs ++ [.functionCallItem name cid,
                  .functionCallOutput cid (toolOutput registry name)]) ps

/-! ### Concrete fixtures for witnesses and counterexamples -/

/-- A concrete healthy environment: all three inspections succeed. -/
def env0 : SystemEnv :=
  { datetime_utc := "2026-10-12 00:00:00+00:00",
    uname_output := .ok "Linux host 6.1.0 x86_64 GNU/Linux",
    uptime_output := .ok "00:00:00 up 1 day, 1 user" }

/-- An environment where the `uname -a` subprocess fails, so
`get_uname` raises `CalledProcessError`. -/
def envFail : SystemEnv :=
  { datetime_utc := "2026-10-12 00:00:00+00:00",
    uname_output := .error "CalledProcessError: uname -a returned 1",
    uptime_output := .ok "00:00:00 up 1 day, 1 user" }

/-- Concrete argparse state with the defaults of `parse_args`. -/
def args0 : Args := { model := "gpt-4o-mini", web := false, stats := false }

/-- A concrete `create_args` tool list: the three registered schemas, as
built at the top of `repl_run` with `args.web` false. -/
def tools0 : List ToolSchema := ((TOOLS env0).map Tool.definition)

/-- Concrete `create_args` with the default model. -/
def ca0 : CreateArgs := { model := "gpt-4o-mini", tools := tools0 }

/-- A concrete REPL state at the start of a session (the developer
message is the only conversation entry). -/
def replState0 : ReplState :=
  { messages := [.message "developer"
      "You're a helpful and friendly assistant."],
    args := args0, create_args := ca0 }

/-! ### Helper lemmas -/

/-- Whatever the remote service returns, `responses_create` only ever
appends to the conversation it was handed. -/
theorem responses_create_extends (registry : List Tool) (ca : CreateArgs)
    (rs : List ApiResponse) :
    ∀ msgs : List Entry,
      ∃ suffix,
        ((responses_create registry ca rs msgs).1).conversation
          = msgs ++ suffix := by
  induction rs with
  | nil =>
    intro msgs
    exact ⟨[], by simp [responses_create, TurnOutcome.conversation]⟩
  | cons r rest ih =>
    intro msgs
    cases hev : r.output0 with
    | message =>
      exact ⟨[Entry.message "assistant" r.output_text],
        by simp [responses_create, hev, TurnOutcome.conversation]⟩
    | webSearchCall =>
      exact ⟨[Entry.message "assistant" r.output_text],
        by simp [responses_create, hev, TurnOutcome.conversation]⟩
    | other tag =>
      exact ⟨[], by simp [responses_create, hev, TurnOutcome.conversation]⟩
    | functionCall name cid =>
      cases hl : lookupTool registry name with
      | none =>
        exact ⟨[], by simp [responses_create, hev, hl, TurnOutcome.conversation]⟩
      | some tool =>
        cases hc : tool.call with
        | error e =>
          exact ⟨[], by simp [responses_create, hev, hl, hc, TurnOutcome.conversation]⟩
        | ok result =>
          obtain ⟨s, hs⟩ :=
            ih (msgs ++ [.functionCallItem name cid, .functionCallOutput cid result])
          refine ⟨[Entry.functionCallItem name cid,
                   Entry.functionCallOutput cid result] ++ s, ?_⟩
          simp only [responses_create, hev, hl, hc]
          simpa [List.append_assoc] using hs

/-- Every request a turn issues carries the `create_args` model. -/
theorem responses_create_model (registry : List Tool) (ca : CreateArgs)
    (rs : List ApiResponse) :
    ∀ msgs : List Entry, ∀ r ∈ (responses_create registry ca rs msgs).2,
      r.model = ca.model := by
  induction rs with
  | nil =>
    intro msgs r hr
    simp [responses_create] at hr
    subst hr; rfl
  | cons resp rest ih =>
    intro msgs r hr
    cases hev : resp.output0 with
    | message =>
      simp [responses_create, hev] at hr; subst hr; rfl
    | webSearchCall =>
      simp [responses_create, hev] at hr; subst hr; rfl
    | other tag =>
      simp [responses_create, hev] at hr; subst hr; rfl
    | functionCall name cid =>
      cases hl : lookupTool registry name with
      | none =>
        simp [responses_create, hev, hl] at hr; subst hr; rfl
      | some tool =>
        cases hc : tool.call with
        | error e =>
          simp [responses_create, hev, hl, hc] at hr; subst hr; rfl
        | ok result =>
          simp only [responses_create, hev, hl, hc, List.mem_cons] at hr
          rcases hr with h | h
          · subst h; rfl
          · exact ih _ r h

/-- The first request of a turn carries exactly the conversation it was
handed (the user Message is already the last entry at that point). -/
theorem responses_create_first_request (registry : List Tool) (ca : CreateArgs)
    (rs : List ApiResponse) (msgs : List Entry) :
    ((responses_create registry ca rs msgs).2).head?
      = some ⟨ca.model, msgs, ca.tools⟩ := by
  cases rs with
  | nil => simp [responses_create]
  | cons r rest =>
    cases hev : r.output0 with
    | message => simp [responses_create, hev]
    | webSearchCall => simp [responses_create, hev]
    | other tag => simp [responses_create, hev]
    | functionCall name cid =>
      cases hl : lookupTool registry name with
      | none => simp [responses_create, hev, hl]
      | some tool =>
        cases hc : tool.call with
        | error e => simp [responses_create, hev, hl, hc]
        | ok result => simp [responses_create, hev, hl, hc]

/-! ### Claims -/

/-- Claim C1: for a response sequence of 0 or more `function_call`
events (each naming a registered tool that returns normally) followed by
one terminal `message` event, `responses_create` appends, per
`function_call` event, exactly one ToolCallRequest followed by exactly
one ToolCallResult with the same `call_id`, in that order, appends each
pair before the next request is issued (the i-th request's conversation
holds exactly the pairs of the first i events, as `turnRequests`
states), and returns the terminal event's text. -/
theorem c1_tool_call_pairs (registry : List Tool) (ca : CreateArgs)
    (calls : List (String × String)) (terminalText : String)
    (msgs : List Entry)
    (h : ∀ p ∈ calls, toolOk registry p.1 = true) :
    responses_create registry ca (callResponses calls terminalText) msgs
      = (.done terminalText
           (msgs ++ callEvents registry calls
                 ++ [.message "assistant" terminalText]),
         turnRequests registry ca msgs calls) := by
  induction calls generalizing msgs with
  | nil => simp [callResponses, responses_create, callEvents, turnRequests]
  | cons p ps ih =>
    obtain ⟨name, cid⟩ := p
    have hp := h (name, cid) (List.mem_cons_self _ _)
    cases hl : lookupTool registry name with
    | none => simp [toolOk, hl] at hp
    | some tool =>
      cases hc : tool.call with
      | error e => simp [toolOk, hl, hc] at hp
      | ok result =>
        have hout : toolOutput registry name = result := by
          simp [toolOutput, hl, hc]
        have hrest : ∀ q ∈ ps, toolOk registry q.1 = true := fun q hq =>
          h q (List.mem_cons_of_mem _ hq)
        have step :=
          ih (msgs ++ [.functionCallItem name cid,
                       .functionCallOutput cid result]) hrest
        simp only [callResponses, List.map_cons, List.cons_append] at step ⊢
        simp only [responses_create, hl, hc, step, callEvents, turnRequests, hout]
        simp [List.append_assoc]

/-- Witness for C1: the registered `get_uptime` tool called once before
the terminal message; both hypothesis and conclusion at a concrete
input. -/
theorem c1_witness :
    (∀ p ∈ ([("get_uptime", "id1")] : List (String × String)),
        toolOk (TOOLS env0) p.1 = true)
    ∧ responses_create (TOOLS env0) ca0
        (callResponses [("get_uptime", "id1")] "done")
        [Entry.message "user" "what is the uptime"]
      = (.done "done"
           ([Entry.message "user" "what is the uptime"]
              ++ callEvents (TOOLS env0) [("get_uptime", "id1")]
              ++ [.message "assistant" "done"]),
         turnRequests (TOOLS env0) ca0
           [Entry.message "user" "what is the uptime"]
           [("get_uptime", "id1")]) :=
  ⟨by decide,
   c1_tool_call_pairs (TOOLS env0) ca0 [("get_uptime", "id1")] "done"
     [Entry.message "user" "what is the uptime"] (by decide)⟩

/-- Claim C2, code behaviour at the failing input: a `function_call`
naming a capability absent from the registry makes `next(..., None)`
yield `None`, and the unchecked `tool.call()` raises `AttributeError` —
the turn dies on an uncaught exception (with a traceback that never
names the requested capability) instead of the prescribed diagnostic
abort, and nothing is appended. -/
theorem c2_unknown_tool_crashes :
    responses_create (TOOLS env0) ca0
      [⟨.functionCall "frobnicate" "call_1", ""⟩]
      [Entry.message "user" "hi"]
      = (.crashed "AttributeError: 'NoneType' object has no attribute 'call'"
           [Entry.message "user" "hi"],
         [⟨ca0.model, [Entry.message "user" "hi"], ca0.tools⟩]) := by
  decide

/-- Counterexample to claim C3 as stated: the registered `get_uname`
tool, in an environment where its subprocess fails, raises past the
registry boundary — the turn aborts as an uncaught exception and no
ToolCallResult carrying an error string is appended. -/
theorem c3_counterexample :
    responses_create (TOOLS envFail) ca0
      [⟨.functionCall "get_uname" "c1", ""⟩] [Entry.message "user" "hi"]
      = (.crashed "CalledProcessError: uname -a returned 1"
           [Entry.message "user" "hi"],
         [⟨ca0.model, [Entry.message "user" "hi"], ca0.tools⟩]) := by
  decide

/-- Claim C3 amended: tool invocation failures are not caught anywhere:
`Tool.call` returns the callable's exception unchanged, and the response
loop propagates it — the turn aborts as a crash carrying that very
exception, with no ToolCallResult appended to the conversation. -/
theorem c3_exception_propagates (registry : List Tool) (ca : CreateArgs)
    (rest : List ApiResponse) (msgs : List Entry) (name cid text : String)
    (t : Tool) (e : String)
    (hl : lookupTool registry name = some t)
    (hc : t.function () = .error e) :
    Tool.call t = .error e
    ∧ responses_create registry ca
        (⟨.functionCall name cid, text⟩ :: rest) msgs
        = (.crashed e msgs, [⟨ca.model, msgs, ca.tools⟩]) := by
  refine ⟨hc, ?_⟩
  simp [responses_create, hl, Tool.call, hc]

/-- Witness for C3's amended theorem: the third registry entry
(`get_uname`) in the failing environment. -/
theorem c3_witness :
    Tool.call ((TOOLS envFail).get ⟨2, by decide⟩)
        = .error "CalledProcessError: uname -a returned 1"
    ∧ responses_create (TOOLS envFail) ca0
        [⟨.functionCall "get_uname" "c1", ""⟩] []
        = (.crashed "CalledProcessError: uname -a returned 1" [],
           [⟨ca0.model, [], ca0.tools⟩]) :=
  c3_exception_propagates (TOOLS envFail) ca0 [] [] "get_uname" "c1" ""
    ((TOOLS envFail).get ⟨2, by decide⟩)
    "CalledProcessError: uname -a returned 1" rfl rfl

/-- Counterexample to claim C4 as stated: the string `" gpt-4o"` (with a
leading blank) is not in the allow-list, yet `handle_set_command` on
`"model=" + " gpt-4o"` changes the active model to `"gpt-4o"` and prints
no error, because the code strips the value before the check. -/
theorem c4_counterexample :
    (" gpt-4o" ∉ ALLOWED_MODELS)
    ∧ (handle_set_command "model= gpt-4o" args0 ca0).args.model = "gpt-4o"
    ∧ (handle_set_command "model= gpt-4o" args0 ca0).create_args.model
        = "gpt-4o"
    ∧ (handle_set_command "model= gpt-4o" args0 ca0).error = none
    ∧ args0.model ≠ "gpt-4o" := by
  decide

/-- Claim C4 amended: the value after `model=` is whitespace-stripped
before the allow-list check.  When the stripped value is not allowed, an
error is printed and neither `args` nor `create_args` changes; when it
is allowed, both the active model and the request parameter become the
stripped value, and every request of any subsequent remote call carries
the model stored in `create_args`. -/
theorem c4_set_model (setting : String) (a : Args) (ca : CreateArgs)
    (hs : pyStartsWith setting "model=" = true) :
    (pyStrip (pyDrop setting 6) ∉ ALLOWED_MODELS →
        handle_set_command setting a ca
          = ⟨a, ca, some ("Error: Model '" ++ pyStrip (pyDrop setting 6)
                            ++ "' not in allowed list.")⟩)
    ∧ (pyStrip (pyDrop setting 6) ∈ ALLOWED_MODELS →
        handle_set_command setting a ca
          = ⟨{ a with model := pyStrip (pyDrop setting 6) },
             { ca with model := pyStrip (pyDrop setting 6) }, none⟩)
    ∧ (∀ (registry : List Tool) (rs : List ApiResponse) (msgs : List Entry)
          (r : Request),
        r ∈ (responses_create registry
               { ca with model := pyStrip (pyDrop setting 6) } rs msgs).2 →
        r.model = pyStrip (pyDrop setting 6)) := by
  refine ⟨?_, ?_, ?_⟩
  · intro hmem
    simp [handle_set_command, hs, hmem]
  · intro hmem
    simp [handle_set_command, hs, hmem]
  · intro registry rs msgs r hr
    exact responses_create_model registry _ rs msgs r hr

/-- Witness for C4's amended theorem: a rejected and an accepted `:set
model=` at concrete inputs. -/
theorem c4_witness :
    handle_set_command "model=bogus" args0 ca0
      = ⟨args0, ca0,
         some ("Error: Model '" ++ pyStrip (pyDrop "model=bogus" 6)
                 ++ "' not in allowed list.")⟩
    ∧ handle_set_command "model=gpt-4o" args0 ca0
      = ⟨{ args0 with model := pyStrip (pyDrop "model=gpt-4o" 6) },
         { ca0 with model := pyStrip (pyDrop "model=gpt-4o" 6) }, none⟩ :=
  ⟨(c4_set_model "model=bogus" args0 ca0 (by decide)).1 (by decide),
   (c4_set_model "model=gpt-4o" args0 ca0 (by decide)).2.1 (by decide)⟩

/-! ### Web-search toggling -/

/-- The number of web-search entries in a tool schema list. -/
def webCount (tools : List ToolSchema) : Nat :=
  tools.countP (fun tool => tool.type == "web_search_preview")

/-- Apply a sequence of `:set` command arguments in source order. -/
def applySets (cmds : List String) (a : Args) (ca : CreateArgs) :
    Args × CreateArgs :=
  match cmds with
  | [] => (a, ca)
  | c :: cs =>
    let r := handle_set_command c a ca
    applySets cs r.args r.create_args

/-- `disable_web_search` removes every web-search entry. -/
theorem webCount_disable (ts : List ToolSchema) :
    webCount (disable_web_search ts) = 0 := by
  rw [webCount, List.countP_eq_zero]
  intro a ha
  have := (List.mem_filter.mp ha).2
  simp only [disable_web_search] at this ⊢
  simp_all [bne]

/-- `enable_web_search` leaves a list already holding a web-search entry
unchanged. -/
theorem enable_idem (ts : List ToolSchema) (h : 1 ≤ webCount ts) :
    enable_web_search ts = ts := by
  rw [enable_web_search, if_pos]
  rw [List.any_eq_true]
  obtain ⟨a, ha, hpa⟩ :=
    List.countP_pos_iff.mp (Nat.lt_of_lt_of_le Nat.zero_lt_one h)
  exact ⟨a, ha, hpa⟩

/-- `enable_web_search` preserves the at-most-one invariant. -/
theorem webCount_enable (ts : List ToolSchema) (h : webCount ts ≤ 1) :
    webCount (enable_web_search ts) ≤ 1 := by
  rw [enable_web_search]
  split
  · exact h
  · rename_i hany
    have h0 : webCount ts = 0 := by
      rw [webCount, List.countP_eq_zero]
      intro a ha hpa
      exact hany (List.any_eq_true.mpr ⟨a, ha, hpa⟩)
    rw [webCount, List.countP_append, ← webCount, h0]
    decide

/-- One `:set` command preserves the at-most-one web-search invariant. -/
theorem handle_set_webCount (s : String) (a : Args) (ca : CreateArgs)
    (h : webCount ca.tools ≤ 1) :
    webCount (handle_set_command s a ca).create_args.tools ≤ 1 := by
  simp only [handle_set_command]
  split
  · split
    · exact h
    · exact h
  · split
    · split
      · exact webCount_enable ca.tools h
      · simp [webCount_disable]
    · split
      · exact h
      · exact h

/-- Counterexample to claim C5 as stated: on a tool list that already
holds two web-search entries, a `:set web=on` step leaves both in place
(`enable_web_search` adds nothing but removes nothing either), so "at
most one web-search entry at every step" fails for that list. -/
theorem c5_counterexample :
    webCount (handle_set_command "web=on" args0
        { ca0 with
            tools := [webSearchSchema, webSearchSchema] }).create_args.tools
      = 2 := by
  decide

/-- Claim C5 amended: provided the tool list holds at most one
web-search entry to begin with (as the list built by `repl_run` does),
any sequence of `:set` commands keeps it at most one at every step;
`enable_web_search` adds the entry only if none is present (a list
already holding one is returned unchanged), and `disable_web_search`
removes every web-search entry. -/
theorem c5_web_toggle :
    (∀ (cmds : List String) (a : Args) (ca : CreateArgs),
        webCount ca.tools ≤ 1 →
        webCount (applySets cmds a ca).2.tools ≤ 1)
    ∧ (∀ ts : List ToolSchema, 1 ≤ webCount ts → enable_web_search ts = ts)
    ∧ (∀ ts : List ToolSchema, webCount (disable_web_search ts) = 0) := by
  refine ⟨?_, enable_idem, webCount_disable⟩
  intro cmds
  induction cmds with
  | nil => intro a ca h; exact h
  | cons c cs ih =>
    intro a ca h
    exact ih _ _ (handle_set_webCount c a ca h)

/-- Witness for C5: toggling web on then off from the default tool list,
and the two side properties at a singleton list. -/
theorem c5_witness :
    webCount (applySets ["web=on", "web=off"] args0 ca0).2.tools ≤ 1
    ∧ enable_web_search [webSearchSchema] = [webSearchSchema]
    ∧ webCount (disable_web_search [webSearchSchema]) = 0 :=
  ⟨c5_web_toggle.1 ["web=on", "web=off"] args0 ca0 (by decide),
   c5_web_toggle.2.1 [webSearchSchema] (by decide),
   c5_web_toggle.2.2 [webSearchSchema]⟩

/-- A turn only appends to the REPL state's conversation. -/
theorem runOrdinaryTurn_extends (env : SystemEnv) (rs : List ApiResponse)
    (st : ReplState) (u : String) :
    ∃ suffix,
      (((runOrdinaryTurn env rs st u).1).state).messages
        = st.messages ++ suffix := by
  obtain ⟨s, hs⟩ :=
    responses_create_extends (TOOLS env) st.create_args rs
      (st.messages ++ [Entry.message "user" u])
  refine ⟨[Entry.message "user" u] ++ s, ?_⟩
  unfold runOrdinaryTurn
  cases hturn :
      (responses_create (TOOLS env) st.create_args rs
        (st.messages ++ [Entry.message "user" u])).1 with
  | done t m =>
    rw [hturn] at hs
    simpa [hturn, StepOutcome.state, TurnOutcome.conversation,
      List.append_assoc] using hs
  | fatalEvent m =>
    rw [hturn] at hs
    simpa [hturn, StepOutcome.state, TurnOutcome.conversation,
      List.append_assoc] using hs
  | crashed e m =>
    rw [hturn] at hs
    simpa [hturn, StepOutcome.state, TurnOutcome.conversation,
      List.append_assoc] using hs
  | noResponse m =>
    rw [hturn] at hs
    simpa [hturn, StepOutcome.state, TurnOutcome.conversation,
      List.append_assoc] using hs

/-- The requests a turn issues are exactly those of `responses_create`
on the conversation with the user Message appended. -/
theorem runOrdinaryTurn_requests (env : SystemEnv) (rs : List ApiResponse)
    (st : ReplState) (u : String) :
    (runOrdinaryTurn env rs st u).2
      = (responses_create (TOOLS env) st.create_args rs
          (st.messages ++ [Entry.message "user" u])).2 := by
  simp only [runOrdinaryTurn]
  split <;> rfl

/-- Claim C6: every operation of the REPL shell and of the response loop
only appends to the conversation: the entries present beforehand are an
unchanged prefix of the conversation afterwards, whatever the input,
the settings, the edited text and the service's responses. -/
theorem c6_append_only :
    (∀ (registry : List Tool) (ca : CreateArgs) (rs : List ApiResponse)
        (msgs : List Entry),
        ∃ suffix,
          ((responses_create registry ca rs msgs).1).conversation
            = msgs ++ suffix)
    ∧ (∀ (env : SystemEnv) (ec : String) (rs : List ApiResponse)
        (st : ReplState) (inp : InputEvent),
        ∃ suffix,
          (((repl_step env ec rs st inp).1).state).messages
            = st.messages ++ suffix) := by
  constructor
  · exact fun registry ca rs msgs =>
      responses_create_extends registry ca rs msgs
  · intro env ec rs st inp
    cases inp with
    | eof => exact ⟨[], by simp [repl_step, StepOutcome.state]⟩
    | line raw =>
      simp only [repl_step]
      repeat' split
      all_goals
        first
        | exact runOrdinaryTurn_extends env rs st _
        | exact ⟨[], by simp [StepOutcome.state]⟩

/-- Claim C7: the process exit status is 0 on the normal terminations —
a typed `exit`, a typed (case-insensitive, whitespace-padded) `quit`,
and end-of-input or interrupt — and non-zero when the response loop
meets an unknown event type, when an unregistered tool is requested
(the uncaught `AttributeError` makes the interpreter exit with status
1), and when a `--file` argument is unreadable. -/
theorem c7_exit_codes :
    (∀ (env : SystemEnv) (ec : String) (rs : List ApiResponse)
        (st : ReplState),
        ((repl_step env ec rs st (.line "exit")).1).processExitCode
          = some 0)
    ∧ (∀ (env : SystemEnv) (ec : String) (rs : List ApiResponse)
        (st : ReplState),
        ((repl_step env ec rs st (.line " Quit ")).1).processExitCode
          = some 0)
    ∧ (∀ (env : SystemEnv) (ec : String) (rs : List ApiResponse)
        (st : ReplState),
        ((repl_step env ec rs st .eof).1).processExitCode = some 0)
    ∧ (∀ (env : SystemEnv) (ec : String) (st : ReplState) (tag text : String),
        ((repl_step env ec [⟨.other tag, text⟩] st
            (.line "hello")).1).processExitCode = some 1)
    ∧ (∀ (env : SystemEnv) (ec : String) (st : ReplState) (cid text : String),
        ((repl_step env ec [⟨.functionCall "no_such_tool" cid, text⟩] st
            (.line "hello")).1).processExitCode = some 1)
    ∧ read_file none = .error 1
    ∧ (1 : Nat) ≠ 0 := by
  have h0 : ¬(pyStrip "hello" = "") := by decide
  have h1 : ¬(pyLower (pyStrip "hello") ∈ (["exit", "quit"] : List String)) :=
    by decide
  have h2 : ¬(pyStrip "hello" = ":edit") := by decide
  have h3 : ¬(pyStartsWith (pyStrip "hello") ":show " = true) := by decide
  have h4 : ¬(pyStartsWith (pyStrip "hello") ":set " = true) := by decide
  refine ⟨?_, ?_, ?_, ?_, ?_, rfl, one_ne_zero⟩
  · intro env ec rs st
    simp only [repl_step]
    rw [if_neg (by decide), if_pos (by decide)]
    rfl
  · intro env ec rs st
    simp only [repl_step]
    rw [if_neg (by decide), if_pos (by decide)]
    rfl
  · intro env ec rs st
    rfl
  · intro env ec st tag text
    simp only [repl_step, if_neg h0, if_neg h1, if_neg h2, if_neg h3,
      if_neg h4]
    simp only [runOrdinaryTurn, responses_create]
    rfl
  · intro env ec st cid text
    simp only [repl_step, if_neg h0, if_neg h1, if_neg h2, if_neg h3,
      if_neg h4]
    simp only [runOrdinaryTurn, responses_create]
    rfl

/-- Claim C8: an input line that is whitespace-only, and a `:edit` whose
edited file strips to the empty string, both make the loop continue with
the state untouched: no Message appended, no remote request issued. -/
theorem c8_skip_empty (env : SystemEnv) (ec : String)
    (rs : List ApiResponse) (st : ReplState) (raw : String)
    (h : pyStrip raw = "" ∨ (pyStrip raw = ":edit" ∧ pyStrip ec = "")) :
    repl_step env ec rs st (.line raw) = (.next st, []) := by
  rcases h with h | ⟨h1, h2⟩
  · simp [repl_step, h]
  · simp [repl_step, h1, handle_edit_command, h2]
    decide

/-- Witness for C8: a whitespace-only line, and a `:edit` whose scratch
file holds only blanks. -/
theorem c8_witness :
    ((pyStrip "   " = ""
        ∨ (pyStrip "   " = ":edit" ∧ pyStrip "x" = ""))
      ∧ repl_step env0 "x" [] replState0 (.line "   ")
          = (.next replState0, []))
    ∧ ((pyStrip ":edit" = ""
        ∨ (pyStrip ":edit" = ":edit" ∧ pyStrip "  " = ""))
      ∧ repl_step env0 "  " [] replState0 (.line ":edit")
          = (.next replState0, [])) :=
  ⟨⟨Or.inl (by decide),
    c8_skip_empty env0 "x" [] replState0 "   " (Or.inl (by decide))⟩,
   ⟨Or.inr (by decide),
    c8_skip_empty env0 "  " [] replState0 ":edit" (Or.inr (by decide))⟩⟩

/-- Counterexample to claim C9 as stated: a `:edit` whose scratch file
holds `":show model"` strips to a non-empty string, yet the REPL handles
it as a `:show` meta-command — the loop continues with the state
untouched, no user Message is appended and no remote call is made. -/
theorem c9_counterexample :
    pyStrip ":show model" ≠ ""
    ∧ repl_step env0 ":show model" [] replState0 (.line ":edit")
        = (.next replState0, []) := by
  decide

/-- Claim C9 amended: a `:edit` whose scratch file strips to a non-empty
string that does not begin with `":show "` or `":set "` (those are still
interpreted as meta-commands on re-entry) makes that stripped text the
user input of the turn: the step is the ordinary turn on it, and the
first request issued carries the conversation with the user Message
appended last. -/
theorem c9_edit_becomes_input (env : SystemEnv) (ec : String)
    (rs : List ApiResponse) (st : ReplState)
    (h1 : ¬(pyStrip ec = ""))
    (h2 : ¬(pyStartsWith (pyStrip ec) ":show " = true))
    (h3 : ¬(pyStartsWith (pyStrip ec) ":set " = true)) :
    repl_step env ec rs st (.line ":edit")
      = runOrdinaryTurn env rs st (handle_edit_command ec)
    ∧ ((repl_step env ec rs st (.line ":edit")).2).head?
        = some ⟨st.create_args.model,
                st.messages ++ [Entry.message "user" (pyStrip ec)],
                st.create_args.tools⟩ := by
  have hstep : repl_step env ec rs st (.line ":edit")
      = runOrdinaryTurn env rs st (handle_edit_command ec) := by
    have e0 : pyStrip ":edit" = ":edit" := by decide
    have k1 : ¬(handle_edit_command ec = "") := by
      simpa [handle_edit_command] using h1
    have k2 : ¬(pyStartsWith (handle_edit_command ec) ":show " = true) := by
      simpa [handle_edit_command] using h2
    have k3 : ¬(pyStartsWith (handle_edit_command ec) ":set " = true) := by
      simpa [handle_edit_command] using h3
    simp only [repl_step, e0, if_true]
    rw [if_neg k1, if_neg k2, if_neg k3,
      if_neg (show ¬((":edit" : String) = "") by decide),
      if_neg (show ¬(pyLower ":edit" ∈ (["exit", "quit"] : List String))
        by decide)]
  refine ⟨hstep, ?_⟩
  rw [hstep, runOrdinaryTurn_requests, responses_create_first_request]
  simp [handle_edit_command]

/-- Witness for C9's amended theorem: an edited file holding
`"  hello there  "`. -/
theorem c9_witness :
    repl_step env0 "  hello there  " [] replState0 (.line ":edit")
      = runOrdinaryTurn env0 [] replState0
          (handle_edit_command "  hello there  ")
    ∧ ((repl_step env0 "  hello there  " [] replState0
          (.line ":edit")).2).head?
        = some ⟨replState0.create_args.model,
                replState0.messages
                  ++ [Entry.message "user" (pyStrip "  hello there  ")],
                replState0.create_args.tools⟩ :=
  c9_edit_becomes_input env0 "  hello there  " [] replState0
    (by decide) (by decide) (by decide)

/-- Claim C10: a line that strips to exactly `":set"` or exactly
`":show"` (no trailing blank, no argument) is not handled as a
meta-command: the step is the ordinary turn on it — the bare word is
appended as a user Message and sent to the remote service, as the first
request's conversation shows. -/
theorem c10_bare_meta_is_input (env : SystemEnv) (ec : String)
    (rs : List ApiResponse) (st : ReplState) (raw1 raw2 : String)
    (h1 : pyStrip raw1 = ":set") (h2 : pyStrip raw2 = ":show") :
    repl_step env ec rs st (.line raw1) = runOrdinaryTurn env rs st ":set"
    ∧ ((repl_step env ec rs st (.line raw1)).2).head?
        = some ⟨st.create_args.model,
                st.messages ++ [Entry.message "user" ":set"],
                st.create_args.tools⟩
    ∧ repl_step env ec rs st (.line raw2) = runOrdinaryTurn env rs st ":show"
    ∧ ((repl_step env ec rs st (.line raw2)).2).head?
        = some ⟨st.create_args.model,
                st.messages ++ [Entry.message "user" ":show"],
                st.create_args.tools⟩ := by
  have hs1 : repl_step env ec rs st (.line raw1)
      = runOrdinaryTurn env rs st ":set" := by
    simp only [repl_step, h1]
    rw [if_neg (show ¬((":set" : String) = ":edit") by decide)]
    rw [if_neg (show ¬(pyLower ":set" ∈ (["exit", "quit"] : List String))
        by decide)]
    repeat rw [if_neg (show ¬((":set" : String) = "") by decide)]
    rw [if_neg (show ¬(pyStartsWith ":set" ":show " = true) by decide),
      if_neg (show ¬(pyStartsWith ":set" ":set " = true) by decide)]
  have hs2 : repl_step env ec rs st (.line raw2)
      = runOrdinaryTurn env rs st ":show" := by
    simp only [repl_step, h2]
    rw [if_neg (show ¬((":show" : String) = ":edit") by decide)]
    rw [if_neg (show ¬(pyLower ":show" ∈ (["exit", "quit"] : List String))
        by decide)]
    repeat rw [if_neg (show ¬((":show" : String) = "") by decide)]
    rw [if_neg (show ¬(pyStartsWith ":show" ":show " = true) by decide),
      if_neg (show ¬(pyStartsWith ":show" ":set " = true) by decide)]
  refine ⟨hs1, ?_, hs2, ?_⟩
  · rw [hs1, runOrdinaryTurn_requests, responses_create_first_request]
  · rw [hs2, runOrdinaryTurn_requests, responses_create_first_request]

/-- Witness for C10: the literal lines `":set"` and `"  :show "`. -/
theorem c10_witness :
    repl_step env0 "" [] replState0 (.line ":set")
      = runOrdinaryTurn env0 [] replState0 ":set"
    ∧ ((repl_step env0 "" [] replState0 (.line ":set")).2).head?
        = some ⟨replState0.create_args.model,
                replState0.messages ++ [Entry.message "user" ":set"],
                replState0.create_args.tools⟩
    ∧ repl_step env0 "" [] replState0 (.line "  :show ")
      = runOrdinaryTurn env0 [] replState0 ":show"
    ∧ ((repl_step env0 "" [] replState0 (.line "  :show ")).2).head?
        = some ⟨replState0.create_args.model,
                replState0.messages ++ [Entry.message "user" ":show"],
                replState0.create_args.tools⟩ :=
  c10_bare_meta_is_input env0 "" [] replState0 ":set" "  :show "
    (by decide) (by decide)

end Hlpr
